import Mathlib

/-!
Verification development for the ChatBaml repository.

Part 1 embeds the schema-to-type compiler of
`src/custom_langchain_model/helpers/parse_json_schema.py`
(`SchemaAdder._parse_object`, `_parse_string`, `_load_ref`, `_parse_function`,
`parse`, `parse_json_schema`, `convert_to_baml_tool`).

Part 2 embeds the streaming-snapshot reconciler of
`src/custom_langchain_model/llms/chat_baml.py`
(`ChatBaml._extract_partial_delta`, `_convert_to_ai_message`, the `_stream` loop).

Python values flowing through the compiler are JSON-like dictionaries; they are
embedded as the inductive `JVal`.  Python strings are Lean `String`s, but every
string operation the source uses (`startswith`, slicing, `strip`, `split`,
`len`) is defined here directly over `String.data` so that it is executable by
the kernel and provably equal to the corresponding list operation.
-/

/-- JSON-like Python value (the dictionaries handed to the schema compiler and
the argument values carried by streaming snapshots). -/
inductive JVal where
  | jnull
  | jbool (b : Bool)
  | jint (n : Int)
  | jstr (s : String)
  | jarr (xs : List JVal)
  | jobj (kvs : List (String × JVal))

/-- Python truthiness (`if value:`) for the embedded values. -/
def pyTruthy : JVal → Bool
  | .jnull => false
  | .jbool b => b
  | .jint n => n != 0
  | .jstr s => s.data.length != 0
  | .jarr xs => !xs.isEmpty
  | .jobj kvs => !kvs.isEmpty

/-- Python `str()` of a scalar value, as used by `f"Default: {default_value}"`
and `str(content_raw)`.  Containers do not occur at those call sites in any
claim input, so their rendering is left as the empty string. -/
def pyStr : JVal → String
  | .jnull => "None"
  | .jbool true => "True"
  | .jbool false => "False"
  | .jint n => toString n
  | .jstr s => s
  | .jarr _ => ""
  | .jobj _ => ""

/-- Raw dictionary subscript `d[k]`: `none` when the key is missing (Python
raises `KeyError` there; call sites turn `none` into an error when the source
subscripts, and treat it as `None` when the source uses `.get`). -/
def jRawGet (v : JVal) (k : String) : Option JVal :=
  match v with
  | .jobj kvs =>
    match kvs.find? (fun kv => kv.1 == k) with
    | some kv => some kv.2
    | none => none
  | _ => none

/-- Python `d.get(k)`: a missing key and a key stored as `None` both come back
as Python `None`, so both are collapsed to `none`. -/
def pyGet (v : JVal) (k : String) : Option JVal :=
  match jRawGet v k with
  | some .jnull => none
  | r => r

/-- Python `s.startswith(p)` (a code-point prefix test). -/
def pyStartsWith (s p : String) : Bool :=
  p.data.isPrefixOf s.data

/-- Python `s[n:]` (code-point slicing). -/
def pyDrop (s : String) (n : Nat) : String :=
  String.mk (s.data.drop n)

/-- Python `len(s)` (number of code points). -/
def pyLen (s : String) : Nat :=
  s.data.length

/-- Python `s.strip()`. -/
def pyStrip (s : String) : String :=
  String.mk (((s.data.dropWhile Char.isWhitespace).reverse.dropWhile Char.isWhitespace).reverse)

/-- Python `s.split("/")` (no maxsplit): split on every slash. -/
def pySplitSlashAux : List Char → List Char → List String
  | [], cur => [String.mk cur.reverse]
  | c :: cs, cur =>
    if c == '/' then String.mk cur.reverse :: pySplitSlashAux cs []
    else pySplitSlashAux cs (c :: cur)

def pySplitSlash (s : String) : List String :=
  pySplitSlashAux s.data []

/-- Rejoin with slashes (used to reconstruct the effect of Python's
`split("/", 2)` maxsplit from the full split). -/
def joinSlash : List String → String
  | [] => ""
  | [s] => s
  | s :: rest => s ++ "/" ++ joinSlash rest

/-- Type handle produced by the compiler — the `FieldType` values returned by
the BAML `TypeBuilder` surface (`tb.string()`, `tb.int()`, `tb.union(...)`,
`new_cls.type()`, …). -/
inductive FieldType where
  | string
  | int
  | float
  | bool
  | null
  | litStr (value : String)
  | cls (name : String)
  | enumT (name : String)
  | union (variants : List FieldType)
  | listT (elem : FieldType)
  | mapT (key value : FieldType)
  | optional (t : FieldType)

/-- A property registered on a class: name, type, and the description attached
via `property_.description(...)`. -/
structure PropDef where
  pname : String
  ftype : FieldType
  descr : Option String

/-- A registered class (created through `tb.add_class`). -/
structure ClsDef where
  cname : String
  props : List PropDef

/-- A registered enumeration (created through `tb.add_enum`). -/
structure EnumDef where
  ename : String
  values : List String

/-- Modelled from the spec: the external `TypeBuilder` registration surface
(§6 `registerClass(name, properties)`, `registerEnum(name, values)`, attach
`description` per property), which lives in the generated `baml_client`
package and is not under `src/`.  Registration is get-or-create by name per
§2's TypeRegistry; in addition every `add_class`/`add_enum` invocation made by
the repository code is recorded in `addClsCalls`/`addEnumCalls` so that
duplicate registration performed by the source is observable. -/
structure TB where
  classes : List ClsDef
  enums : List EnumDef
  addClsCalls : List String
  addEnumCalls : List String
  dynProps : List (String × FieldType)

def TB.init : TB := ⟨[], [], [], [], []⟩

/-- Models `tb.add_class(name)`: records the call and creates the class entry
if it does not exist yet. -/
def TB.addCls (tb : TB) (name : String) : TB :=
  let tb := { tb with addClsCalls := tb.addClsCalls ++ [name] }
  if tb.classes.any (fun c => c.cname == name) then tb
  else { tb with classes := tb.classes ++ [⟨name, []⟩] }

/-- Models `new_cls.add_property(field_name, field_type)` on the class builder
named `cname`. -/
def TB.addProp (tb : TB) (cname fieldName : String) (ft : FieldType) : TB :=
  { tb with classes := tb.classes.map (fun c =>
      if c.cname == cname then ⟨c.cname, c.props ++ [⟨fieldName, ft, none⟩]⟩ else c) }

/-- Models `property_.description(d)` on the property handle returned by the
immediately preceding `add_property` call: it sets the description of the most
recently added property of the class. -/
def TB.describeLast (tb : TB) (cname : String) (d : String) : TB :=
  { tb with classes := tb.classes.map (fun c =>
      if c.cname == cname then
        match c.props.reverse with
        | [] => c
        | p :: rest => ⟨c.cname, (⟨p.pname, p.ftype, some d⟩ :: rest).reverse⟩
      else c) }

/-- Models `tb.add_enum(name)`: records the call and creates the enum entry if
absent. -/
def TB.addEnumDef (tb : TB) (name : String) : TB :=
  let tb := { tb with addEnumCalls := tb.addEnumCalls ++ [name] }
  if tb.enums.any (fun e => e.ename == name) then tb
  else { tb with enums := tb.enums ++ [⟨name, []⟩] }

/-- Models `new_enum.add_value(value)`. -/
def TB.addEnumVal (tb : TB) (name value : String) : TB :=
  { tb with enums := tb.enums.map (fun e =>
      if e.ename == name then ⟨e.ename, e.values ++ [value]⟩ else e) }

/-- State of one `SchemaAdder` instance: the shared builder plus the adder's
`_ref_cache` and `_class_cache` dictionaries. -/
structure AdderState where
  tb : TB
  refCache : List (String × FieldType)
  classCache : List (String × FieldType)

/-- Association-list lookup for the two caches. -/
def alookupFT (kvs : List (String × FieldType)) (k : String) : Option FieldType :=
  match kvs.find? (fun kv => kv.1 == k) with
  | some kv => some kv.2
  | none => none

/-- The type of the recursive `self.parse` reference handed to the per-kind
parsing functions. -/
abbrev ParseFn := JVal → AdderState → Except String (FieldType × AdderState)

/-- Shared property loop of `SchemaAdder._parse_object` (lines 26-52) and
`SchemaAdder._parse_function` (lines 115-144); the two loops in the source are
textually identical.  For each `(field_name, field_schema)` pair it computes
the field type (with the generic-dict fallback), wraps it `.optional()` when
the field is not required and has no default, adds the property to the class
named `cname`, and attaches the description (with the `"Default: <value>"`
suffix when a default exists).  Warnings emitted by the source do not affect
values and are not modelled. -/
def parse_fields (rec : ParseFn) (cname : String) (required : List JVal) :
    List (String × JVal) → AdderState → Except String AdderState
  | [], st => .ok st
  | (field_name, fs) :: rest, st =>
    match fs with
    | .jobj _ => do
      let default_value := pyGet fs "default"
      let (field_type, st) ←
        if (pyGet fs "properties").isNone
            && (match jRawGet fs "type" with | some (.jstr "object") => true | _ => false) then
          -- generic dict: `tb.map(tb.string(), tb.string())` plus a warning
          Except.ok (FieldType.mapT .string .string, st)
        else rec fs st
      let field_type :=
        if !(required.any (fun r => match r with | .jstr s => s == field_name | _ => false))
            && default_value.isNone
        then field_type.optional else field_type
      let st : AdderState := { st with tb := st.tb.addProp cname field_name field_type }
      let st : AdderState ←
        match pyGet fs "description" with
        | none => Except.ok st
        | some dv =>
          if !pyTruthy dv then Except.ok st
          else match dv with
            | .jstr d =>
              let d := match default_value with
                | some dval => pyStrip (pyStrip d ++ "\n" ++ "Default: " ++ pyStr dval)
                | none => d
              if d.data.length > 0 then
                Except.ok { st with tb := st.tb.describeLast cname d }
              else Except.ok st
            | _ => Except.error "description must be a string"
      parse_fields rec cname required rest st
    | _ => .error "field schema must be a dict"

/-- Embedding of `SchemaAdder._parse_object` (parse_json_schema.py lines
14-53): requires a `title`, registers the class, adds every declared property
through the shared loop, and returns the class handle. -/
def parse_object (rec : ParseFn) (node : JVal) (st : AdderState) :
    Except String (FieldType × AdderState) :=
  match jRawGet node "type" with
  | some (.jstr "object") =>
    match pyGet node "title" with
    | none => .error "Title is required in JSON schema for object type"
    | some (.jstr name) => do
      let required ←
        match jRawGet node "required" with
        | none => Except.ok []
        | some (.jarr xs) => Except.ok xs
        | some _ => Except.error "required must be a list"
      let st : AdderState := { st with tb := st.tb.addCls name }
      let st : AdderState ←
        match pyGet node "properties" with
        | none => Except.ok st
        | some props =>
          if !pyTruthy props then Except.ok st
          else match props with
            | .jobj kvs => parse_fields rec name required kvs st
            | _ => Except.error "properties must be a dict"
      .ok (FieldType.cls name, st)
    | some _ => .error "class name must be a string"
  | _ => .error "assert: type is object"

/-- Embedding of `SchemaAdder._parse_string` (lines 55-68): a string schema
with a named `enum` registers an enumeration, an unnamed `enum` becomes a
union of string literals, and everything else is `tb.string()`. -/
def parse_string (node : JVal) (st : AdderState) :
    Except String (FieldType × AdderState) :=
  match jRawGet node "type" with
  | some (.jstr "string") =>
    let title := pyGet node "title"
    (match pyGet node "enum" with
     | none => .ok (.string, st)
     | some ev =>
       if !pyTruthy ev then .ok (.string, st)
       else match ev with
         | .jarr values =>
           (match title with
            | none => do
              let lits ← values.mapM (fun v =>
                match v with
                | .jstr s => Except.ok (FieldType.litStr s)
                | _ => Except.error "literal_string expects a string value")
              .ok (.union lits, st)
            | some (.jstr t) => do
              let st : AdderState := { st with tb := st.tb.addEnumDef t }
              let st : AdderState ← values.foldlM (fun st v =>
                match v with
                | .jstr s => Except.ok { st with tb := st.tb.addEnumVal t s }
                | _ => Except.error "enum value must be a string") st
              .ok (.enumT t, st)
            | some _ => .error "enum name must be a string")
         | _ => .error "enum must be a list")
  | _ => .error "assert: type is string"

/-- Python `ref.split("/", 2)` followed by the three-way unpacking
`_, left, right = ...`: `none` models the `ValueError` raised when the split
yields fewer than three parts. -/
def refSplit (ref : String) : Option (String × String) :=
  match pySplitSlash ref with
  | _ :: left :: right0 :: rest => some (left, joinSlash (right0 :: rest))
  | _ => none

/-- Embedding of `SchemaAdder._load_ref` (lines 70-80).  Only local `#/...`
references are accepted; the result is cached in `_ref_cache` keyed by the
literal reference string, and the referent is compiled (via `rec`) only on a
cache miss.  When the referenced section is missing or falsy the source falls
through to `return self._ref_cache[ref]` on an unpopulated key, a `KeyError`;
that is modelled as an error. -/
def load_ref (rec : ParseFn) (root : JVal) (ref : String) (st : AdderState) :
    Except String (FieldType × AdderState) :=
  if !pyStartsWith ref "#/" then .error ("Only local references are supported: " ++ ref)
  else match refSplit ref with
  | none => .error "ValueError: not enough values to unpack"
  | some (left, right) =>
    match alookupFT st.refCache ref with
    | some t => .ok (t, st)
    | none =>
      match pyGet root left with
      | some refs =>
        if !pyTruthy refs then .error ("KeyError: " ++ ref)
        else match refs with
          | .jobj kvs =>
            if kvs.any (fun kv => kv.1 == right) then
              match jRawGet refs right with
              | some referent => do
                let (t, st) ← rec referent st
                .ok (t, { st with refCache := st.refCache ++ [(ref, t)] })
              | none => .error ("Reference " ++ ref ++ " not found in schema")
            else .error ("Reference " ++ ref ++ " not found in schema")
          | _ => .error "assert: refs is a dict"
      | none => .error ("KeyError: " ++ ref)

/-- Embedding of `SchemaAdder._parse_function` (lines 82-148).  Builds one
flat class `tool_<name>` holding an `action` literal-string property (value
`tool_<name>`, carrying the tool description) followed by the function's
parameters as sibling properties, caches the handle in `_class_cache` under
`tool_<name>`, and returns the cached handle on repeated compilation. -/
def parse_function (rec : ParseFn) (node : JVal) (st : AdderState) :
    Except String (FieldType × AdderState) :=
  match jRawGet node "type" with
  | some (.jstr "function") =>
    match jRawGet node "function" with
    | none => .error "KeyError: function"
    | some fd =>
      match jRawGet fd "name" with
      | none => .error "KeyError: name"
      | some nv =>
        let tool_name := pyStr nv
        let class_name := "tool_" ++ tool_name
        match alookupFT st.classCache class_name with
        | some cached => .ok (cached, st)
        | none => do
          let st : AdderState := { st with tb := st.tb.addCls class_name }
          let st : AdderState :=
            { st with tb := st.tb.addProp class_name "action" (.litStr ("tool_" ++ tool_name)) }
          let st : AdderState ←
            match pyGet fd "description" with
            | none => Except.ok st
            | some dv =>
              if !pyTruthy dv then Except.ok st
              else match dv with
                | .jstr d => Except.ok { st with tb := st.tb.describeLast class_name d }
                | _ => Except.error "description must be a string"
          let st : AdderState ←
            match pyGet fd "parameters" with
            | none => Except.ok st
            | some ps =>
              if !pyTruthy ps then Except.ok st
              else match ps with
                | .jobj _ =>
                  (match jRawGet ps "type" with
                   | some (.jstr "object") => do
                     let required ←
                       match jRawGet ps "required" with
                       | none => Except.ok []
                       | some (.jarr xs) => Except.ok xs
                       | some _ => Except.error "required must be a list"
                     match pyGet ps "properties" with
                     | none => Except.ok st
                     | some props =>
                       if !pyTruthy props then Except.ok st
                       else match props with
                         | .jobj kvs => parse_fields rec class_name required kvs st
                         | _ => Except.error "properties must be a dict"
                   | _ => Except.ok st)
                | _ => Except.error "AttributeError: parameters is not a dict"
          let handle := FieldType.cls class_name
          .ok (handle, { st with classCache := st.classCache ++ [(class_name, handle)] })
  | _ => .error "assert: type is function"

/-- Threads `self.parse` over a list of sub-schemas (the list comprehensions in
the `anyOf` and `additionalProperties` branches of `SchemaAdder.parse`). -/
def parse_many (rec : ParseFn) : List JVal → AdderState → Except String (List FieldType × AdderState)
  | [], st => .ok ([], st)
  | x :: xs, st => do
    let (t, st) ← rec x st
    let (ts, st) ← parse_many rec xs st
    .ok (t :: ts, st)

/-- The `anyOf` branch of `SchemaAdder.parse` (lines 151-153); `none` means
the branch is not taken and dispatch falls through. -/
def try_any_of (rec : ParseFn) (node : JVal) (st : AdderState) :
    Option (Except String (FieldType × AdderState)) :=
  match pyGet node "anyOf" with
  | none => none
  | some av =>
    if !pyTruthy av then none
    else some (match av with
      | .jarr subs => do
        let (ts, st) ← parse_many rec subs st
        Except.ok (FieldType.union ts, st)
      | _ => Except.error "anyOf must be a list")

/-- The `additionalProperties` branch of `SchemaAdder.parse` (lines 155-159):
a truthy `additionalProperties` dict whose own `anyOf` is truthy becomes
`map<string, union>`; a truthy non-dict fails the `isinstance` assert; in all
other cases dispatch falls through. -/
def try_additional_properties (rec : ParseFn) (node : JVal) (st : AdderState) :
    Option (Except String (FieldType × AdderState)) :=
  match pyGet node "additionalProperties" with
  | none => none
  | some ap =>
    if !pyTruthy ap then none
    else match ap with
      | .jobj _ =>
        (match pyGet ap "anyOf" with
         | none => none
         | some av =>
           if !pyTruthy av then none
           else some (match av with
             | .jarr subs => do
               let (ts, st) ← parse_many rec subs st
               Except.ok (FieldType.mapT .string (.union ts), st)
             | _ => Except.error "anyOf must be a list"))
      | _ => some (Except.error "additionalProperties must be a dict")

/-- The `$ref` branch of `SchemaAdder.parse` (lines 161-163). -/
def try_ref (rec : ParseFn) (root node : JVal) (st : AdderState) :
    Option (Except String (FieldType × AdderState)) :=
  match pyGet node "$ref" with
  | none => none
  | some rv =>
    if !pyTruthy rv then none
    else some (match rv with
      | .jstr r => load_ref rec root r st
      | _ => Except.error "ref must be a string")

/-- The `type`-keyed dispatch table of `SchemaAdder.parse` (lines 165-186):
an absent `type` defaults to string (with a warning, not modelled); an unknown
or non-string `type` raises `Unsupported type`. -/
def dispatch_type (rec : ParseFn) (node : JVal) (st : AdderState) :
    Except String (FieldType × AdderState) :=
  match pyGet node "type" with
  | none => .ok (.string, st)
  | some (.jstr t) =>
    if t == "string" then parse_string node st
    else if t == "number" then .ok (.float, st)
    else if t == "integer" then .ok (.int, st)
    else if t == "object" then parse_object rec node st
    else if t == "array" then
      match jRawGet node "items" with
      | none => .error "KeyError: items"
      | some items => do
        let (t, st) ← rec items st
        .ok (.listT t, st)
    else if t == "boolean" then .ok (.bool, st)
    else if t == "null" then .ok (.null, st)
    else if t == "function" then parse_function rec node st
    else .error ("Unsupported type: " ++ t)
  | some _ => .error "Unsupported type"

/-- One step of `SchemaAdder.parse` (lines 150-186), with the recursive call
abstracted as `rec`.  A non-dict node fails immediately (Python would raise
`AttributeError` on the first `.get`). -/
def parse_step (rec : ParseFn) (root node : JVal) (st : AdderState) :
    Except String (FieldType × AdderState) :=
  match node with
  | .jobj _ =>
    (match try_any_of rec node st with
     | some r => r
     | none =>
       match try_additional_properties rec node st with
       | some r => r
       | none =>
         match try_ref rec root node st with
         | some r => r
         | none => dispatch_type rec node st)
  | _ => .error "AttributeError: node is not a dict"

/-- Fuel-indexed embedding of `SchemaAdder.parse`.  The Python recursion is
unbounded (and diverges on self-referential schemas, as §9 of the spec notes);
`fuel` bounds the recursion depth, and running out of fuel is an error distinct
from every error the source raises. -/
def parse (root : JVal) : Nat → JVal → AdderState → Except String (FieldType × AdderState)
  | 0, _, _ => .error "recursion limit exceeded"
  | fuel + 1, node, st => parse_step (fun n s => parse root fuel n s) root node st

/-- Embedding of the module-level `parse_json_schema(json_schema, tb)` (lines
189-191): builds a fresh `SchemaAdder` (fresh `_ref_cache` and `_class_cache`)
over the shared builder and parses the document against itself as root. -/
def parse_json_schema (fuel : Nat) (json_schema : JVal) (tb : TB) :
    Except String (FieldType × TB) := do
  let (t, st) ← parse json_schema fuel json_schema ⟨tb, [], []⟩
  .ok (t, st.tb)

/-- Embedding of `convert_to_baml_tool` (lines 193-249).  Each tool is first
normalised by LangChain's `convert_to_openai_tool` — an external function, so
tools are represented here directly by the OpenAI-format schema it returns.
Each schema is parsed by a fresh `SchemaAdder`; the `ReplyToUser` handle is
appended when requested; the union (wrapped in a list when
`is_multiple_tools`) is registered on `DynamicSchema` under `property_name`. -/
def convert_to_baml_tool (fuel : Nat) (tools : List JVal) (property_name : String)
    (is_multiple_tools : Bool) (include_reply_to_user : Bool) (tb : TB) :
    Except String TB :=
  if tools.length == 0 then .error "At least one tool must be provided"
  else if (pyStrip property_name).data.length == 0 then
    .error "property_name must be provided and non-empty"
  else do
    let (baml_types, tb) ← tools.foldlM (fun acc tool => do
        let (t, tb) ← parse_json_schema fuel tool acc.2
        Except.ok (acc.1 ++ [t], tb)) (([] : List FieldType), tb)
    let baml_types :=
      if include_reply_to_user then baml_types ++ [FieldType.cls "ReplyToUser"]
      else baml_types
    let tools_union := FieldType.union baml_types
    let final_type := if is_multiple_tools then FieldType.listT tools_union else tools_union
    .ok { tb with dynProps := tb.dynProps ++ [(property_name, final_type)] }

/-! ## Part 2: the streaming-snapshot reconciler (`chat_baml.py`) -/

/-- The distinguished reply discriminant (`REPLY_TO_USER = 'reply_to_user'`,
chat_baml.py line 51). -/
def REPLY_TO_USER : String := "reply_to_user"

/-- The dictionary held by a snapshot under the configured slot
(`getattr(partial, self.property_name)` after the `isinstance(..., dict)`
check).  `name` holds the `"name"` key (`none` when absent or `None`; the
engine's output schema types it as a string literal, so non-string values
cannot arise).  `arguments` holds the `"arguments"` key; `none` covers an
absent key, `None`, and a non-dict value (the source treats all three alike),
and the dict's values stay `JVal` since tool arguments are arbitrary JSON. -/
structure ToolDict where
  name : Option String
  arguments : Option (List (String × JVal))

/-- A terminal `DynamicSchema` response: the slot's tool dictionary (with
`none` covering an absent or non-dict attribute) and the `content` attribute
consulted by `getattr(dynamic_schema, "content", "")`. -/
structure FinalSchema where
  selected_tool : Option ToolDict
  content : Option String

/-- Raw lookup in an arguments dictionary (`arguments["content"]`,
`arguments.get(k, default)` with the default handled at the call site). -/
def dgetArgs (args : List (String × JVal)) (k : String) : Option JVal :=
  match args.find? (fun kv => kv.1 == k) with
  | some kv => some kv.2
  | none => none

/-- Python `arguments.get(k)` followed by an `is None` test: a missing key and
an explicit `None` value are both `none`. -/
def pyGetArg (args : List (String × JVal)) (k : String) : Option JVal :=
  match dgetArgs args k with
  | some .jnull => none
  | r => r

/-- Embedding of `ChatBaml._extract_partial_delta` (chat_baml.py lines
360-436).  The snapshot is the slot dictionary (`none` when the attribute is
absent or not a dict); `prev_content` is the accumulated text (always a
string here — the source's `list`-typed `prev_content` branch raises and is
out of the reply path modelled).  Returns `(tool_name, delta)` or the
content-discontinuity error. -/
def extract_partial_delta (part : Option ToolDict) (prev_content : String) :
    Except String (String × String) :=
  match part with
  | none => .ok ("", "")
  | some td =>
    -- `tool_name = tool_dict.get("name") or ""`
    let tool_name := match td.name with | none => "" | some s => s
    if tool_name == "" || tool_name != REPLY_TO_USER then .ok (tool_name, "")
    else match td.arguments with
      | none => .ok (tool_name, "")
      | some args =>
        if args.isEmpty then .ok (tool_name, "")
        else match pyGetArg args "content" with
          | none => .ok (tool_name, "")
          | some cv =>
            let content := pyStr cv
            if content == "" then .ok (tool_name, "")
            else if prev_content == "" then .ok (tool_name, content)
            else if pyStartsWith content prev_content then
              .ok (tool_name, pyDrop content (pyLen prev_content))
            else .error "Content discontinuity detected"

/-- A chunk yielded by the streaming path: either an `AIMessageChunk` carrying
a content delta, or an `AIMessageChunk` carrying one tool-call chunk.  The
source serialises the arguments with `json.dumps` and stamps the chunk with a
fresh `uuid4`; the arguments are kept structured here and the uuid is the
injected `id` (fresh identifiers are modelled as distinct naturals). -/
inductive StreamMsg where
  | contentChunk (content : String)
  | toolCallChunk (tname : String) (args : List (String × JVal)) (id : Nat)

/-- A final `AIMessage`: either plain text or one tool call (whose `id` models
the fresh `uuid4` drawn during that finalize call). -/
inductive FinalMsg where
  | text (content : String)
  | toolCall (tname : String) (args : List (String × JVal)) (id : Nat)

/-- The `arguments = tool_dict.get("arguments") or {}` coercion: an absent,
`None`, non-dict or empty value becomes the empty dictionary. -/
def argsOrEmpty : Option (List (String × JVal)) → List (String × JVal)
  | none => []
  | some a => a

/-- Embedding of the `is_streaming=True` branch of
`ChatBaml._convert_to_ai_message` (lines 460-493).  Note that this branch
never consults `self._tool_names`: any non-empty, non-reply name becomes a
tool-call chunk.  `fresh` is the `uuid4` drawn for the chunk. -/
def convert_to_ai_message_stream (selected : Option ToolDict) (fresh : Nat) : StreamMsg :=
  let pair : Option String × List (String × JVal) :=
    match selected with
    | none => (none, [])
    | some t => (t.name, argsOrEmpty t.arguments)
  match pair.1 with
  | none => .contentChunk ""
  | some tool_name =>
    if tool_name == "" then .contentChunk ""
    else if tool_name == REPLY_TO_USER then
      -- `if not arguments.get("content"): return AIMessageChunk(content='')`
      match dgetArgs pair.2 "content" with
      | some (.jstr s) => if s == "" then .contentChunk "" else .contentChunk s
      | _ => .contentChunk ""
    else .toolCallChunk tool_name pair.2 fresh

/-- Embedding of the final (non-streaming) branch of
`ChatBaml._convert_to_ai_message` (lines 495-520), the finalizer.
`tool_names` is `self._tool_names` as stored by `bind_tools`.  A reply whose
`content` value is neither absent nor a string would make
`AIMessage(content=...)` fail pydantic validation; that is the
`ValidationError` case (unreachable for schema-valid terminal snapshots, whose
`content` is a string).  `fresh` is the `uuid4` drawn for the tool call. -/
def convert_to_ai_message_final (schema : FinalSchema) (tool_names : List String)
    (fresh : Nat) : Except String FinalMsg :=
  let pair : Option String × List (String × JVal) :=
    match schema.selected_tool with
    | none => (none, [])
    | some t => (t.name, argsOrEmpty t.arguments)
  match pair.1 with
  | none => .ok (.text (match schema.content with | none => "" | some c => c))
  | some tool_name =>
    if tool_name == "" then .ok (.text (match schema.content with | none => "" | some c => c))
    else if tool_name == REPLY_TO_USER then
      -- `AIMessage(content=arguments.get("content", ""))`
      match dgetArgs pair.2 "content" with
      | none => .ok (.text "")
      | some (.jstr s) => .ok (.text s)
      | some _ => .error "ValidationError: content must be a string"
    else if !(tool_names.contains tool_name) then
      .error ("Tool '" ++ tool_name ++ "' selected but not in available tools")
    else .ok (.toolCall tool_name pair.2 fresh)

/-- Embedding of the snapshot loop of `ChatBaml._stream` (lines 313-352).
Given the run's partial snapshots, the completed response
(`stream.get_final_response()`), the accumulated `prev_content` and the fresh
id drawn when a tool call is finalized, it yields the sequence of chunks: a
non-empty non-reply discriminant converts the final response through the
streaming branch and stops the loop; an empty delta is skipped; a non-empty
delta is yielded and appended to `prev_content`. -/
def stream_events : List (Option ToolDict) → FinalSchema → String → Nat →
    Except String (List StreamMsg)
  | [], _, _, _ => .ok []
  | part :: rest, final, prev_content, fresh =>
    match extract_partial_delta part prev_content with
    | .error e => .error e
    | .ok (tool_name, delta) =>
      if tool_name != "" && tool_name != REPLY_TO_USER then
        .ok [convert_to_ai_message_stream final.selected_tool fresh]
      else if delta == "" then stream_events rest final prev_content fresh
      else do
        let events ← stream_events rest final (prev_content ++ delta) fresh
        Except.ok (.contentChunk delta :: events)

/-- The per-snapshot delta sequence of a reply-path run: the deltas returned
by `_extract_partial_delta` with `prev_content` accumulated exactly as
`_stream` accumulates it (`prev_content += delta` for a non-empty delta;
appending the empty delta is the identity). -/
def reply_deltas : List (Option ToolDict) → String → Except String (List String)
  | [], _ => .ok []
  | part :: rest, prev => do
    let r ← extract_partial_delta part prev
    let ds ← reply_deltas rest (prev ++ r.2)
    Except.ok (r.2 :: ds)

/-! ## Concrete claim inputs -/

/-- Projection: the properties of the class registered under `name`. -/
def clsProps (tb : TB) (name : String) : List PropDef :=
  match tb.classes.find? (fun c => c.cname == name) with
  | some c => c.props
  | none => []

/-- Projection: is a handle wrapped `.optional()`? -/
def isOptionalFT : FieldType → Bool
  | .optional _ => true
  | _ => false

/-- Whether an `Except` result is a success. -/
def exceptIsOk {ε α : Type} : Except ε α → Bool
  | .ok _ => true
  | .error _ => false

/-- The `x` parameter schema of the C1 function wrapper: a required integer. -/
def c1_x_schema : JVal := .jobj [("type", .jstr "integer"), ("description", .jstr "first addend")]

/-- The `y` parameter schema of the C1 function wrapper: an integer with
default 5. -/
def c1_y_schema : JVal :=
  .jobj [("type", .jstr "integer"), ("description", .jstr "second addend"), ("default", .jint 5)]

/-- The OpenAI function-wrapper schema of the claim: callable `f` with
parameters `{x: int (required), y: int (default 5)}`. -/
def c1_schema : JVal :=
  .jobj [("type", .jstr "function"),
         ("function", .jobj [
            ("name", .jstr "f"),
            ("description", .jstr "adds two integers"),
            ("parameters", .jobj [
               ("type", .jstr "object"),
               ("properties", .jobj [("x", c1_x_schema), ("y", c1_y_schema)]),
               ("required", .jarr [.jstr "x"])])])]

def c1_result : Except String (FieldType × TB) := parse_json_schema 32 c1_schema TB.init

/-- The builder state after compiling `c1_schema` (the error case cannot occur
and falls back to the empty builder). -/
def c1_tb : TB :=
  match c1_result with
  | .ok (_, tb) => tb
  | .error _ => TB.init

/-! ## C1 -/

/-- First component of the C1 claim at the concrete input: the produced outer
class carries an `arguments` property (pointing at a nested object type). -/
def c1_has_arguments_field : Bool :=
  match c1_result with
  | .ok (.cls outer, tb) => (clsProps tb outer).any (fun p => p.pname == "arguments")
  | _ => false

/-- Second component of the C1 claim at the concrete input: the discriminant
literal is the callable's name `"f"`. -/
def c1_discriminant_is_bare_name : Bool :=
  match c1_result with
  | .ok (.cls outer, tb) => (clsProps tb outer).any (fun p =>
      p.pname == "action" && (match p.ftype with | .litStr "f" => true | _ => false))
  | _ => false

/-- Third component of the C1 claim at the concrete input: the parameter `y`
(int, default 5) is compiled as optional. -/
def c1_y_is_optional : Bool :=
  match c1_result with
  | .ok (.cls _, tb) => (clsProps tb "tool_f").any (fun p =>
      p.pname == "y" && isOptionalFT p.ftype)
  | _ => false

/-- C1 counterexample: compiling the function-wrapper schema
`{x:int, y:int default 5}` for callable `f` refutes the claimed two-level
`ActionType` on every count — the produced class has no `arguments` property
(the parameters are flattened next to the discriminant), the discriminant
literal is `"tool_f"` rather than the callable's name `"f"`, and `y` is not
marked optional (its non-`None` default suppresses the `.optional()` wrap). -/
theorem c1_counterexample :
    c1_has_arguments_field = false
    ∧ c1_discriminant_is_bare_name = false
    ∧ c1_y_is_optional = false := ⟨rfl, rfl, rfl⟩

/-- C1 amended: the function-wrapper path produces a single flat class named
`tool_<name>` whose `action` property is the literal string `tool_<name>`
(carrying the tool description) and whose parameters are sibling properties:
`x` stays a required `int`, and `y` stays a non-optional `int` whose default
is recorded only as the description suffix `"Default: 5"`. -/
theorem c1_flat_action_class :
    c1_result = .ok (.cls "tool_f",
      ⟨[⟨"tool_f",
         [⟨"action", .litStr "tool_f", some "adds two integers"⟩,
          ⟨"x", .int, some "first addend"⟩,
          ⟨"y", .int, some "second addend\nDefault: 5"⟩]⟩],
        [], ["tool_f"], [], []⟩) := rfl

/-! ## C3 -/

/-- A named object schema (`title: "Foo"`). -/
def c3_obj_schema : JVal :=
  .jobj [("type", .jstr "object"),
         ("title", .jstr "Foo"),
         ("properties", .jobj [("n", .jobj [("type", .jstr "integer")])]),
         ("required", .jarr [.jstr "n"])]

/-- A document in which the same named object schema is compiled twice within
one `SchemaAdder` session (two branches of one `anyOf`). -/
def c3_obj_twice : JVal := .jobj [("anyOf", .jarr [c3_obj_schema, c3_obj_schema])]

/-- A document in which the same function-wrapper schema is compiled twice
within one session. -/
def c3_fn_twice : JVal := .jobj [("anyOf", .jarr [c1_schema, c1_schema])]

def c3_obj_result : Except String (FieldType × TB) := parse_json_schema 32 c3_obj_twice TB.init

def c3_tb_obj : TB :=
  match c3_obj_result with
  | .ok (_, tb) => tb
  | .error _ => TB.init

/-- C3 counterexample: compiling the same *named object* schema twice within
one session performs a duplicate registration — `tb.add_class("Foo")` is
invoked a second time (`_parse_object` consults no cache), refuting the
claim's "no duplicate registration for every named type, including named
object schemas". -/
theorem c3_counterexample : ¬ (c3_tb_obj.addClsCalls.count "Foo" ≤ 1) := by decide

/-- C3 amended: within one `SchemaAdder` session, deduplication holds for
function-wrapper schemas — the second compilation is answered from
`_class_cache` with the identical handle and registers nothing new (one
`add_class` call in total) — but not for named object schemas, which have no
cache: the second compilation re-invokes `add_class` and re-adds every
property. -/
theorem c3_function_cached_object_not :
    (parse_json_schema 32 c3_fn_twice TB.init =
      .ok (.union [.cls "tool_f", .cls "tool_f"],
        ⟨[⟨"tool_f",
           [⟨"action", .litStr "tool_f", some "adds two integers"⟩,
            ⟨"x", .int, some "first addend"⟩,
            ⟨"y", .int, some "second addend\nDefault: 5"⟩]⟩],
          [], ["tool_f"], [], []⟩))
    ∧ c3_obj_result = .ok (.union [.cls "Foo", .cls "Foo"],
        ⟨[⟨"Foo", [⟨"n", .int, none⟩, ⟨"n", .int, none⟩]⟩],
          [], ["Foo", "Foo"], [], []⟩) := ⟨rfl, rfl⟩

/-! ## C8 -/

/-- The referenced definition for the C8 document. -/
def c8_foo : JVal :=
  .jobj [("type", .jstr "object"),
         ("title", .jstr "RefFoo"),
         ("properties", .jobj [("n", .jobj [("type", .jstr "integer")])])]

/-- A document whose two properties both reference `#/$defs/RefFoo`. -/
def c8_doc : JVal :=
  .jobj [("type", .jstr "object"),
         ("title", .jstr "Outer"),
         ("properties", .jobj [
            ("a", .jobj [("$ref", .jstr "#/$defs/RefFoo")]),
            ("b", .jobj [("$ref", .jstr "#/$defs/RefFoo")])]),
         ("$defs", .jobj [("RefFoo", c8_foo)])]

/-- A parse function that fails if ever invoked (used to witness that a cached
reference resolution never re-compiles the referent). -/
def rec_stub : ParseFn := fun _ _ => .error "not invoked"

/-- An adder state whose `_ref_cache` already holds `#/a/b`. -/
def c8_cached_state : AdderState := ⟨TB.init, [("#/a/b", .int)], []⟩

/-- C8: reference resolution caches by the literal reference string.  First
conjunct (general): once a `$ref` string is in `_ref_cache`, resolving it
again returns exactly the cached handle with the session state unchanged, and
the result does not depend on the parser at all (the referent is not
re-compiled).  Second conjunct: in a document holding two references to
`#/$defs/RefFoo`, the referent is compiled exactly once — one
`add_class("RefFoo")` call — and both properties receive the same handle. -/
theorem c8_ref_cache :
    (∀ (rec₁ rec₂ : ParseFn) (root : JVal) (ref : String) (st : AdderState) (t : FieldType),
       pyStartsWith ref "#/" = true →
       (refSplit ref).isSome = true →
       alookupFT st.refCache ref = some t →
       load_ref rec₁ root ref st = .ok (t, st)
       ∧ load_ref rec₁ root ref st = load_ref rec₂ root ref st)
    ∧ parse_json_schema 32 c8_doc TB.init =
        .ok (.cls "Outer",
          ⟨[⟨"Outer", [⟨"a", .optional (.cls "RefFoo"), none⟩,
                        ⟨"b", .optional (.cls "RefFoo"), none⟩]⟩,
            ⟨"RefFoo", [⟨"n", .optional .int, none⟩]⟩],
            [], ["Outer", "RefFoo"], [], []⟩) := by
  constructor
  · intro rec₁ rec₂ root ref st t h1 h2 h3
    cases hsp : refSplit ref with
    | none => rw [hsp] at h2; simp at h2
    | some lr =>
      obtain ⟨left, right⟩ := lr
      constructor
      · simp [load_ref, h1, hsp, h3]
      · simp [load_ref, h1, hsp, h3]
  · rfl

/-- Witness for C8: a concrete cached reference is answered from the cache
(with a parser stub that fails if invoked). -/
theorem c8_ref_cache_witness :
    load_ref rec_stub .jnull "#/a/b" c8_cached_state = .ok (.int, c8_cached_state) :=
  (c8_ref_cache.1 rec_stub rec_stub .jnull "#/a/b" c8_cached_state .int rfl rfl rfl).1

/-! ## C4 -/

/-- C4 counterexample: assembling with an empty action list and
`include_reply_to_user = true` does *not* succeed — the guard
`if tools is None or len(tools) == 0` fires before the reply fallback is ever
considered, so the claimed "reply action alone forms the output union" case is
refuted. -/
theorem c4_counterexample :
    exceptIsOk (convert_to_baml_tool 32 [] "test" false true TB.init) = false := rfl

/-- C4 amended: an empty action list raises the config error regardless of
`include_reply_to_user`, and a blank or whitespace-only slot name raises the
config error whenever the action list is non-empty (with an empty list the
empty-list error fires first). -/
theorem c4_empty_and_blank_errors :
    convert_to_baml_tool 32 [] "test" false false TB.init =
      .error "At least one tool must be provided"
    ∧ convert_to_baml_tool 32 [] "test" false true TB.init =
      .error "At least one tool must be provided"
    ∧ (∀ (fuel : Nat) (tools : List JVal) (pname : String) (m r : Bool) (tb : TB),
        pyStrip pname = "" → tools.length ≠ 0 →
        convert_to_baml_tool fuel tools pname m r tb =
          .error "property_name must be provided and non-empty") := by
  refine ⟨rfl, rfl, ?_⟩
  intro fuel tools pname m r tb h1 h2
  simp [convert_to_baml_tool, h1, h2]

/-- Witness for C4's amended blank-name clause at a concrete input. -/
theorem c4_blank_name_witness :
    convert_to_baml_tool 32 [.jnull] " " false true TB.init =
      .error "property_name must be provided and non-empty" :=
  c4_empty_and_blank_errors.2.2 32 [.jnull] " " false true TB.init rfl (by decide)

/-! ## C2 -/

/-- A reply-path snapshot with the given content. -/
def replySnap (c : String) : Option ToolDict :=
  some ⟨some REPLY_TO_USER, some [("content", .jstr c)]⟩

/-- The claim's five-snapshot reply run: discriminants
`["","","reply","reply","reply"]`, contents `["","","Hel","Hello","Hello world"]`
(an empty discriminant is a snapshot whose `name` has not been committed). -/
def c2_snaps : List (Option ToolDict) :=
  [some ⟨some "", none⟩,
   some ⟨some "", none⟩,
   replySnap "Hel",
   replySnap "Hello",
   replySnap "Hello world"]

/-- The claim's shrinking run: contents `"Hello"` then `"Hell"`. -/
def c2_shrink : List (Option ToolDict) := [replySnap "Hello", replySnap "Hell"]

/-- If an arguments dictionary yields a content value, it is not empty. -/
theorem pyGetArg_ne_nil {args : List (String × JVal)} {k : String} {v : JVal}
    (h : pyGetArg args k = some v) : args.isEmpty = false := by
  cases args with
  | nil => simp [pyGetArg, dgetArgs] at h
  | cons a l => rfl

/-- A successful Python prefix test really is a list prefix. -/
theorem pyStartsWith_prefix {s p : String} (h : pyStartsWith s p = true) :
    p.data <+: s.data := by
  have h2 : p.data.isPrefixOf s.data = true := h
  exact List.isPrefixOf_iff_prefix.mp h2

/-- Appending the dropped suffix of a successful prefix test restores the
whole string (`prev + content[len(prev):] == content`). -/
theorem append_pyDrop_of_startsWith {c prev : String} (h : pyStartsWith c prev = true) :
    prev ++ pyDrop c (pyLen prev) = c := by
  obtain ⟨rest, hr⟩ := pyStartsWith_prefix h
  apply String.ext
  show (prev ++ pyDrop c (pyLen prev)).data = c.data
  rw [String.data_append]
  show prev.data ++ c.data.drop prev.data.length = c.data
  rw [← hr, List.drop_left]

/-- C2: reply-path reconciliation.  General part: for every reply snapshot
whose `content` is present and non-empty, if the content starts with the
accumulated previous text the reconciler emits exactly the suffix
`content[len(prev):]` (so the accumulated text becomes the content, and an
unchanged snapshot yields the empty suffix), and otherwise it raises the
content-discontinuity error.  Concrete parts: the claim's five-snapshot run
yields deltas `["","","Hel","lo"," world"]` with no error, and the shrinking
run (`"Hello"` then `"Hell"`) succeeds on the first snapshot and raises on the
second. -/
theorem c2_monotonic_delta :
    (∀ (args : List (String × JVal)) (prev c : String),
       pyGetArg args "content" = some (.jstr c) → c ≠ "" →
       ((pyStartsWith c prev = true →
          extract_partial_delta (some ⟨some REPLY_TO_USER, some args⟩) prev
            = .ok (REPLY_TO_USER, pyDrop c (pyLen prev))
          ∧ prev ++ pyDrop c (pyLen prev) = c)
        ∧ (pyStartsWith c prev = false →
          extract_partial_delta (some ⟨some REPLY_TO_USER, some args⟩) prev
            = .error "Content discontinuity detected")))
    ∧ reply_deltas c2_snaps "" = .ok ["", "", "Hel", "lo", " world"]
    ∧ reply_deltas [replySnap "Hello"] "" = .ok ["Hello"]
    ∧ reply_deltas c2_shrink "" = .error "Content discontinuity detected" := by
  refine ⟨?_, rfl, rfl, rfl⟩
  intro args prev c hc hne
  have hargs : args.isEmpty = false := pyGetArg_ne_nil hc
  constructor
  · intro hsw
    refine ⟨?_, append_pyDrop_of_startsWith hsw⟩
    by_cases hp : prev = ""
    · subst hp
      simp [extract_partial_delta, hargs, hc, hne, pyStr, pyDrop, pyLen, REPLY_TO_USER]
    · simp [extract_partial_delta, hargs, hc, hne, hp, hsw, pyStr, REPLY_TO_USER]
  · intro hsw
    have hp : prev ≠ "" := by
      intro hp
      subst hp
      simp [pyStartsWith, List.isPrefixOf] at hsw
    simp [extract_partial_delta, hargs, hc, hne, hp, hsw, pyStr, REPLY_TO_USER]

/-- Witness for C2's general clause at a concrete input: previous text `"a"`,
content `"ab"`, delta `"b"`. -/
theorem c2_monotonic_delta_witness :
    extract_partial_delta (some ⟨some REPLY_TO_USER, some [("content", .jstr "ab")]⟩) "a"
      = .ok (REPLY_TO_USER, pyDrop "ab" (pyLen "a"))
    ∧ "a" ++ pyDrop "ab" (pyLen "a") = "ab" :=
  (c2_monotonic_delta.1 [("content", .jstr "ab")] "a" "ab" rfl (by decide)).1 rfl

/-! ## C10 -/

/-- C10: on the reply path, a snapshot whose `arguments` dict is absent or
empty, or whose `content` is absent, `None`, or the empty string, yields the
empty delta and never raises — for *every* accumulated previous text, so no
monotonicity check is performed and content shrinking to `""` from a non-empty
previous text is accepted as "no tokens yet". -/
theorem c10_empty_content_no_error :
    ∀ (td : ToolDict) (prev : String),
      td.name = some REPLY_TO_USER →
      (td.arguments = none
       ∨ td.arguments = some []
       ∨ (∃ args, td.arguments = some args ∧ pyGetArg args "content" = none)
       ∨ (∃ args, td.arguments = some args ∧ pyGetArg args "content" = some (.jstr ""))) →
      extract_partial_delta (some td) prev = .ok (REPLY_TO_USER, "") := by
  intro td prev hname hcases
  obtain ⟨nm, argsOpt⟩ := td
  cases hname
  rcases hcases with h | h | ⟨args, h, hc⟩ | ⟨args, h, hc⟩ <;> cases h
  · simp [extract_partial_delta, REPLY_TO_USER]
  · simp [extract_partial_delta, REPLY_TO_USER]
  · simp [extract_partial_delta, REPLY_TO_USER, hc]
  · have hargs : args.isEmpty = false := pyGetArg_ne_nil hc
    simp [extract_partial_delta, REPLY_TO_USER, hc, hargs, pyStr]

/-- Witness for C10: content shrinks from previous text `"Hello"` to the empty
string and the reconciler still emits the empty delta without error. -/
theorem c10_witness :
    extract_partial_delta (some ⟨some REPLY_TO_USER, some [("content", .jstr "")]⟩) "Hello"
      = .ok (REPLY_TO_USER, "") :=
  c10_empty_content_no_error ⟨some REPLY_TO_USER, some [("content", .jstr "")]⟩ "Hello" rfl
    (Or.inr (Or.inr (Or.inr ⟨[("content", .jstr "")], rfl, rfl⟩)))

/-! ## C5 -/

/-- C5: finalize behavior on terminal snapshots.  Reply path: for every
argument dictionary and every registered-name set — membership of the reply
discriminant included — the result is the reply text (`""` when `content` is
absent, the content string otherwise; terminal snapshots are schema-valid, so
`content` is absent or a string).  Unknown-discriminant path: a non-empty,
non-reply discriminant outside the registered action-name set raises the
validation error instead of downgrading to the reply path. -/
theorem c5_finalize_validation :
    (∀ (argsOpt : Option (List (String × JVal))) (cnt : Option String)
       (tool_names : List String) (fresh : Nat),
       (dgetArgs (argsOrEmpty argsOpt) "content" = none →
          convert_to_ai_message_final ⟨some ⟨some REPLY_TO_USER, argsOpt⟩, cnt⟩ tool_names fresh
            = .ok (.text ""))
       ∧ (∀ s, dgetArgs (argsOrEmpty argsOpt) "content" = some (.jstr s) →
          convert_to_ai_message_final ⟨some ⟨some REPLY_TO_USER, argsOpt⟩, cnt⟩ tool_names fresh
            = .ok (.text s)))
    ∧ (∀ (td : ToolDict) (cnt : Option String) (tool_names : List String)
         (fresh : Nat) (tname : String),
        td.name = some tname → tname ≠ "" → tname ≠ REPLY_TO_USER →
        tool_names.contains tname = false →
        convert_to_ai_message_final ⟨some td, cnt⟩ tool_names fresh =
          .error ("Tool '" ++ tname ++ "' selected but not in available tools")) := by
  constructor
  · intro argsOpt cnt tool_names fresh
    constructor
    · intro hc
      simp [convert_to_ai_message_final, REPLY_TO_USER, hc]
    · intro s hc
      simp [convert_to_ai_message_final, REPLY_TO_USER, hc]
  · intro td cnt tool_names fresh tname hname hne hnr hnotin
    obtain ⟨nm, argsOpt⟩ := td
    cases hname
    simp [convert_to_ai_message_final, hne, hnr]
    simpa using hnotin

/-- Witness for C5 at concrete inputs: a reply snapshot with content `"hi"`
finalizes to the text message even though the reply discriminant is not in the
registered set, and the unknown discriminant `"unknown_tool"` raises. -/
theorem c5_finalize_validation_witness :
    convert_to_ai_message_final
        ⟨some ⟨some REPLY_TO_USER, some [("content", .jstr "hi")]⟩, none⟩ ["tool_add"] 0
      = .ok (.text "hi")
    ∧ convert_to_ai_message_final
        ⟨some ⟨some "unknown_tool", some []⟩, none⟩ ["tool_add", REPLY_TO_USER] 0
      = .error "Tool 'unknown_tool' selected but not in available tools" :=
  ⟨(c5_finalize_validation.1 (some [("content", .jstr "hi")]) none ["tool_add"] 0).2 "hi" rfl,
   c5_finalize_validation.2 ⟨some "unknown_tool", some []⟩ none ["tool_add", REPLY_TO_USER] 0
     "unknown_tool" rfl (by decide) (by decide) rfl⟩

/-! ## C6 -/

/-- Erases the freshly generated tool-call id (the `uuid4` injected per
finalize call). -/
def finalMsgSansId : FinalMsg → FinalMsg
  | .text c => .text c
  | .toolCall n a _ => .toolCall n a 0

/-- The id carried by a finalized tool call, if any. -/
def finalIdOf : Except String FinalMsg → Option Nat
  | .ok (.toolCall _ _ i) => some i
  | _ => none

/-- A terminal action snapshot used to refute C6. -/
def c6_snap : FinalSchema := ⟨some ⟨some "tool_add", some [("a", .jint 2)]⟩, none⟩

/-- C6 counterexample: finalizing the same terminal action snapshot twice does
*not* return value-equal results — each call stamps the tool call with a fresh
`uuid4` (modelled as distinct injected identifiers), so the two `AIMessage`
values differ in the tool-call id. -/
theorem c6_counterexample :
    convert_to_ai_message_final c6_snap ["tool_add"] 0
      ≠ convert_to_ai_message_final c6_snap ["tool_add"] 1 := by
  intro h
  exact absurd (congrArg finalIdOf h) (by decide)

/-- C6 amended: finalize is idempotent up to the generated tool-call id — for
every snapshot the results of two finalize calls agree after erasing the id,
and on the reply path (where no id is generated) the results are fully
value-equal. -/
theorem c6_idempotent_up_to_id :
    (∀ (schema : FinalSchema) (tool_names : List String) (f1 f2 : Nat),
       (convert_to_ai_message_final schema tool_names f1).map finalMsgSansId
         = (convert_to_ai_message_final schema tool_names f2).map finalMsgSansId)
    ∧ (∀ (argsOpt : Option (List (String × JVal))) (cnt : Option String)
         (tool_names : List String) (f1 f2 : Nat),
        convert_to_ai_message_final ⟨some ⟨some REPLY_TO_USER, argsOpt⟩, cnt⟩ tool_names f1
          = convert_to_ai_message_final ⟨some ⟨some REPLY_TO_USER, argsOpt⟩, cnt⟩ tool_names f2) := by
  constructor
  · intro schema tool_names f1 f2
    obtain ⟨sel, cnt⟩ := schema
    cases sel with
    | none => rfl
    | some td =>
      obtain ⟨nm, argsOpt⟩ := td
      cases nm with
      | none => rfl
      | some n =>
        by_cases h1 : n = ""
        · subst h1; rfl
        · by_cases h2 : n = REPLY_TO_USER
          · subst h2
            cases hdg : dgetArgs (argsOrEmpty argsOpt) "content" with
            | none => simp [convert_to_ai_message_final, REPLY_TO_USER, hdg]
            | some v =>
              cases v <;> simp [convert_to_ai_message_final, REPLY_TO_USER, hdg]
          · by_cases h3 : n ∈ tool_names
            · simp [convert_to_ai_message_final, h1, h2, h3, finalMsgSansId, Except.map]
            · simp [convert_to_ai_message_final, h1, h2, h3]
  · intro argsOpt cnt tool_names f1 f2
    cases hdg : dgetArgs (argsOrEmpty argsOpt) "content" with
    | none => simp [convert_to_ai_message_final, REPLY_TO_USER, hdg]
    | some v =>
      cases v <;> simp [convert_to_ai_message_final, REPLY_TO_USER, hdg]

/-! ## C9 -/

/-- A terminal response whose discriminant `"ghost_tool"` is outside any
registered action-name set. -/
def c9_final : FinalSchema := ⟨some ⟨some "ghost_tool", some [("q", .jstr "x")]⟩, none⟩

/-- C9: the streaming conversion branch never checks the discriminant against
the bound action-name set.  General part: for every snapshot dictionary with a
non-empty, non-reply name — the branch takes no name set at all, mirroring the
source, which reads `self._tool_names` only in the non-streaming branch — the
result is a tool-call chunk, and the function is total, so nothing is raised.
Concrete parts: a streamed run routed to the unregistered name `"ghost_tool"`
completes by emitting its tool-call chunk, while the non-streaming conversion
of the same response raises the validation error. -/
theorem c9_streaming_skips_validation :
    (∀ (td : ToolDict) (tname : String) (fresh : Nat),
       td.name = some tname → tname ≠ "" → tname ≠ REPLY_TO_USER →
       convert_to_ai_message_stream (some td) fresh
         = .toolCallChunk tname (argsOrEmpty td.arguments) fresh)
    ∧ stream_events [some ⟨some "ghost_tool", some [("q", .jstr "x")]⟩] c9_final "" 7
        = .ok [.toolCallChunk "ghost_tool" [("q", .jstr "x")] 7]
    ∧ convert_to_ai_message_final c9_final ["tool_add", REPLY_TO_USER] 7
        = .error "Tool 'ghost_tool' selected but not in available tools" := by
  refine ⟨?_, rfl, rfl⟩
  intro td tname fresh hname hne hnr
  obtain ⟨nm, argsOpt⟩ := td
  cases hname
  simp [convert_to_ai_message_stream, hne, hnr]

/-- Witness for C9's general clause: an unregistered tool name becomes a
tool-call chunk on the streaming path. -/
theorem c9_streaming_skips_validation_witness :
    convert_to_ai_message_stream (some ⟨some "mystery", some [("k", .jint 1)]⟩) 4
      = .toolCallChunk "mystery" [("k", .jint 1)] 4 :=
  c9_streaming_skips_validation.1 ⟨some "mystery", some [("k", .jint 1)]⟩ "mystery" 4 rfl
    (by decide) (by decide)

/-! ## C7 -/

/-- A run whose discriminant flips from the reply discriminant to
`"tool_add"`. -/
def c7_flip_snaps : List (Option ToolDict) :=
  [replySnap "Hel", some ⟨some "tool_add", some [("a", .jint 1)]⟩]

/-- The completed response of the flipped run. -/
def c7_final : FinalSchema :=
  ⟨some ⟨some "tool_add", some [("a", .jint 1), ("b", .jint 2)]⟩, none⟩

/-- C7 counterexample: a run that locks the reply discriminant and then shows
the different non-empty discriminant `"tool_add"` does *not* raise any
stream-integrity error — the source performs no discriminant-stability check;
it silently switches to the action path and completes, emitting the reply
delta already streamed followed by the finalized tool-call chunk. -/
theorem c7_counterexample :
    stream_events c7_flip_snaps c7_final "" 3
      = .ok [.contentChunk "Hel",
             .toolCallChunk "tool_add" [("a", .jint 1), ("b", .jint 2)] 3] := rfl

/-- C7 amended: once a non-empty, non-reply discriminant is observed the run
finalizes immediately — the remaining snapshots are never examined, the event
yielded is the streaming conversion of the completed response, and no error is
raised on the discriminant change. -/
theorem c7_flip_finalizes_without_error :
    ∀ (td : ToolDict) (tname : String) (rest : List (Option ToolDict))
      (final : FinalSchema) (prev : String) (fresh : Nat),
      td.name = some tname → tname ≠ "" → tname ≠ REPLY_TO_USER →
      stream_events (some td :: rest) final prev fresh
        = .ok [convert_to_ai_message_stream final.selected_tool fresh] := by
  intro td tname rest final prev fresh hname hne hnr
  obtain ⟨nm, argsOpt⟩ := td
  cases hname
  simp [stream_events, extract_partial_delta, hne, hnr]

/-- Witness for C7's amended statement: a later snapshot that would flip the
discriminant again is never examined. -/
theorem c7_flip_finalizes_witness :
    stream_events [some ⟨some "tool_b", none⟩, replySnap "zzz"] c7_final "prior" 9
      = .ok [convert_to_ai_message_stream c7_final.selected_tool 9] :=
  c7_flip_finalizes_without_error ⟨some "tool_b", none⟩ "tool_b" [replySnap "zzz"] c7_final
    "prior" 9 rfl (by decide) (by decide)
